import Mathlib

/-!
Verification development for the Meridian Solar integration
(`custom_components/meridian_solar/__init__.py`).

The Python code is shallowly embedded: Python `float` values are modelled as
rationals (all numeric literals and CSV fields appearing in the claims are
exact decimals, so `ℚ` models them faithfully), Python dicts holding the
energy reading are modelled as association lists (`EDict`), raised
exceptions as `Except.error`, and the outcomes of network sub-calls as
explicit parameters (`Env`, `AuthInput`).
-/

set_option maxRecDepth 10000

namespace MeridianSolar

/-! ## Python string primitives

Models of the Python string operations used by the parser: `str.strip`,
`str.split(sep)` for a one-character separator, `str.lower`, the `in`
substring test, and `float(s)` (restricted to sign/digits/decimal
point/exponent syntax; `inf`, `nan` and underscore separators are not
modelled, and no input in the repository's data format uses them). -/

def pyIsSpace (c : Char) : Bool :=
  c == ' ' || c == '\t' || c == '\n' || c == '\r' || c == '\x0b' || c == '\x0c'

def pyStrip (s : String) : String :=
  String.mk (((s.data.dropWhile pyIsSpace).reverse.dropWhile pyIsSpace).reverse)

def splitOnChar (sep : Char) : List Char → List (List Char)
  | [] => [[]]
  | c :: cs =>
    match splitOnChar sep cs with
    | [] => if c = sep then [[], []] else [[c]]
    | g :: gs => if c = sep then [] :: g :: gs else (c :: g) :: gs

def pySplit (sep : Char) (s : String) : List String :=
  (splitOnChar sep s.data).map String.mk

def pyLower (s : String) : String :=
  String.mk (s.data.map Char.toLower)

def containsSub : List Char → List Char → Bool
  | sub, [] => sub.isEmpty
  | sub, c :: cs => sub.isPrefixOf (c :: cs) || containsSub sub cs

def pyIn (sub s : String) : Bool :=
  containsSub sub.data s.data

def digitsVal (ds : List Char) : ℕ :=
  ds.foldl (fun a c => 10 * a + (c.toNat - 48)) 0

def takeDigits (cs : List Char) : List Char × List Char :=
  (cs.takeWhile Char.isDigit, cs.dropWhile Char.isDigit)

def pyFloatCore (cs0 : List Char) : Option ℚ :=
  let sgned : ℚ × List Char :=
    match cs0 with
    | '+' :: r => (1, r)
    | '-' :: r => (-1, r)
    | _ => (1, cs0)
  let sgn := sgned.1
  let ip := takeDigits sgned.2
  let fp : List Char × List Char :=
    match ip.2 with
    | '.' :: r => takeDigits r
    | _ => ([], ip.2)
  if ip.1 = [] ∧ fp.1 = [] then none
  else
    let mant : ℚ := sgn * ((digitsVal ip.1 : ℚ) + (digitsVal fp.1 : ℚ) / (10 : ℚ) ^ fp.1.length)
    match fp.2 with
    | [] => some mant
    | 'e' :: r =>
      let es : Bool × List Char :=
        match r with
        | '+' :: r2 => (true, r2)
        | '-' :: r2 => (false, r2)
        | _ => (true, r)
      let ed := takeDigits es.2
      if ed.1 = [] ∨ ed.2 ≠ [] then none
      else some (if es.1 then mant * (10 : ℚ) ^ digitsVal ed.1 else mant / (10 : ℚ) ^ digitsVal ed.1)
    | 'E' :: r =>
      let es : Bool × List Char :=
        match r with
        | '+' :: r2 => (true, r2)
        | '-' :: r2 => (false, r2)
        | _ => (true, r)
      let ed := takeDigits es.2
      if ed.1 = [] ∨ ed.2 ≠ [] then none
      else some (if es.1 then mant * (10 : ℚ) ^ digitsVal ed.1 else mant / (10 : ℚ) ^ digitsVal ed.1)
    | _ => none

/-- Model of Python `float(s)`: `none` models a raised `ValueError`. -/
def pyFloat? (s : String) : Option ℚ :=
  pyFloatCore (pyStrip s).data

/-- Model of `try: float(s) except ValueError: 0.0` (used for CSV fields). -/
def pyFloatD (s : String) : ℚ :=
  (pyFloat? s).getD 0

/-! ## Python dicts

The energy-reading dict is modelled as an association list.  `dset` models
`d[k] = v` (update in place if the key exists, else append at the end, as
Python dicts do) and `dget` models `d.get(k)`. -/

abbrev EDict := List (String × ℚ)

def dget : EDict → String → Option ℚ
  | [], _ => none
  | (k', v) :: d, k => if k' = k then some v else dget d k

def dset : EDict → String → ℚ → EDict
  | [], k, v => [(k, v)]
  | (k', v') :: d, k, v => if k' = k then (k', v) :: d else (k', v') :: dset d k v

/-! ## CSV extraction (`_extract_data_from_csv`, lines 564-713)

The network part (download) is factored out: the pure parsing core takes the
downloaded CSV text, today's date string (the code formats
`datetime.now()` as unpadded `D/M/YYYY`; here it is an opaque parameter),
the already-extracted rate pair and the optional usage-chart average.
`Except.error` models a raised `UpdateFailed`. -/

/-- Fields 4..min(52, len)-1 of a split line, parsed with non-numeric
entries coerced to 0.0 (the `for i in range(4, min(52, len(parts)))` loop). -/
def halfHourValues (parts : List String) : List ℚ :=
  (List.range' 4 (min 52 parts.length - 4)).map (fun i => pyFloatD (parts.getD i ""))

/-- The body of the per-line aggregation loop, after the line has been split
on commas.  Both the first (today) pass and the fallback (recent-date) pass
of `_extract_data_from_csv` run exactly this per line: skip lines with
fewer than 52 fields, skip lines whose field 3 differs from the target
date, then add the summed half-hour values to the dict under the meter
element's key, and for `Feed-in` also record the last value `> 0` scanning
the 48 values in reverse. -/
def processParts (today : String) (d : EDict) (parts : List String) : EDict :=
  if parts.length < 52 then d
  else if parts.getD 3 "" ≠ today then d
  else
    let hv := halfHourValues parts
    let total := hv.sum
    if parts.getD 2 "" = "Feed-in" then
      let d1 := dset d "daily_feed_in" total
      match hv.reverse.find? (fun v => decide (0 < v)) with
      | some v => dset d1 "solar_generation" v
      | none => d1
    else if parts.getD 2 "" = "Consumption" then
      dset d "daily_consumption" total
    else d

/-- One iteration of the aggregation loop on a raw line: empty (after
`strip`) lines are skipped, otherwise the line is split on commas and
processed. -/
def processLine (today : String) (d : EDict) (line : String) : EDict :=
  if pyStrip line = "" then d
  else processParts today d (pySplit ',' line)

/-- The initial `data` dict of `_extract_data_from_csv` (lines 595-602). -/
def csvInit (cur nxt : ℚ) : EDict :=
  [("current_rate", cur), ("next_rate", nxt), ("solar_generation", 0),
   ("daily_consumption", 0), ("daily_feed_in", 0), ("average_daily_use", 0)]

/-- The `recent_dates` list of the fallback (lines 662-668): field 3 of
every non-empty data line that splits into more than 3 fields, in file
order.  The fallback date is this list's last element. -/
def recentDatesOf (lines : List String) : List String :=
  (lines.drop 1).filterMap (fun l =>
    if pyStrip l = "" then none
    else
      let parts := pySplit ',' l
      if 3 < parts.length then some (parts.getD 3 "") else none)

/-- Merging the usage-chart average into the dict (lines 650-655); `none`
models the extractor failing or returning a mapping without the key. -/
def mergeAvg (avg : Option ℚ) (d : EDict) : EDict :=
  match avg with
  | some v => dset d "average_daily_use" v
  | none => d

/-- The pure core of `_extract_data_from_csv` after the download: first
pass over data lines restricted to today's date, merge of the usage
average, then (exactly when both `daily_consumption` and `daily_feed_in`
are still 0.0) the most-recent-date fallback pass.  The two keys are
always present, so `(dget d k).getD 0` models `d[k]`. -/
def extractCore (lines : List String) (today : String) (cur nxt : ℚ) (avg : Option ℚ) : EDict :=
  let d1 := (lines.drop 1).foldl (processLine today) (csvInit cur nxt)
  let d2 := mergeAvg avg d1
  if (dget d2 "daily_consumption").getD 0 = 0 ∧ (dget d2 "daily_feed_in").getD 0 = 0 then
    match (recentDatesOf lines).getLast? with
    | some recent => (lines.drop 1).foldl (processLine recent) d2
    | none => d2
  else d2

/-- Model of `_extract_data_from_csv` given the downloaded CSV body: the
text is stripped and split on newlines, fewer than 2 lines raise
`UpdateFailed` (modelled as `Except.error`), otherwise the pure core runs.
No other exception can escape the parse (every per-field `float` failure
is caught and coerced). -/
def extract_data_from_csv (body : String) (today : String) (cur nxt : ℚ) (avg : Option ℚ) :
    Except Unit EDict :=
  let lines := pySplit '\n' (pyStrip body)
  if lines.length < 2 then .error ()
  else .ok (extractCore lines today cur nxt avg)

/-! ## Rate extraction (`_extract_rate_information`, lines 833-923)

The regex scanning of a page's HTML is abstracted to the list of numeric
match strings it produces, in pattern-then-document order.  A page is
`none` when its request raised or returned a non-200 status (the code
`continue`s in both cases). -/

/-- Cents-to-currency normalization (lines 890-892): values above 10 are
divided by 100. -/
def normalizeRate (r : ℚ) : ℚ :=
  if 10 < r then r / 100 else r

/-- Normalization plus the plausibility band (lines 890-895): the candidate
is retained exactly when the normalized value lies in [0.15, 0.50]. -/
def rateFilter (r : ℚ) : Option ℚ :=
  let n := normalizeRate r
  if 0.15 ≤ n ∧ n ≤ 0.50 then some n else none

/-- The `found_rates` list for one page: each match string is parsed with
`float` (a `ValueError` skips it), normalized and filtered. -/
def pageCandidates (ms : List String) : List ℚ :=
  ms.filterMap (fun m => (pyFloat? m).bind rateFilter)

/-- Occurrence count by value (Python `==` on floats). -/
def countQ (l : List ℚ) (x : ℚ) : ℕ :=
  (l.filter (fun y => decide (y = x))).length

/-- The distinct values of `l` in first-occurrence order (the key order of
`collections.Counter(l)`). -/
def firstOccs (l : List ℚ) : List ℚ :=
  l.foldl (fun acc x => if x ∈ acc then acc else acc ++ [x]) []

def mostCommonAux (l : List ℚ) : List ℚ → ℚ × ℕ → ℚ
  | [], best => best.1
  | x :: xs, best =>
    if best.2 < countQ l x then mostCommonAux l xs (x, countQ l x)
    else mostCommonAux l xs best

/-- Model of `Counter(l).most_common(1)[0][0]`: the most frequent value,
ties broken by first-occurrence order (for `n = 1`, `Counter.most_common`
reduces to `max` over the counter's items in insertion order, and Python's
`max` returns the first maximal element). -/
def mostCommonQ (l : List ℚ) : Option ℚ :=
  match firstOccs l with
  | [] => none
  | x :: xs => some (mostCommonAux l xs (x, countQ l x))

/-- The page loop of `_extract_rate_information` (lines 856-918): pages are
scanned in order; a failed page is skipped; the first page with at least
one surviving candidate determines both rates (mode for several candidates,
the single candidate otherwise) and stops the scan; if no page yields a
candidate the defaults (0.25, 0.25) stand. -/
def selectRates : List (Option (List String)) → ℚ × ℚ
  | [] => (0.25, 0.25)
  | none :: rest => selectRates rest
  | some ms :: rest =>
    let found := pageCandidates ms
    if found = [] then selectRates rest
    else if 1 < found.length then
      ((mostCommonQ found).getD 0.25, (mostCommonQ found).getD 0.25)
    else
      (found.headD 0.25, found.headD 0.25)

/-- The candidates a page contributes to the scan: a failed page and a page
with no surviving candidate both contribute nothing and let the loop
continue. -/
def pageYield : Option (List String) → List ℚ
  | none => []
  | some ms => pageCandidates ms

/-! ## Authentication (`_authenticate`, lines 215-301) and teardown
(`async_stop`, lines 980-990)

Only the session fields the claims are about are modelled: whether the
`aiohttp` client exists (`hasSession`), whether it is closed, and the
`_logged_in` flag.  `AuthInput` carries the observed outcomes of the
network sub-steps: the `_get_login_page` phase, the POST's status,
`Location` header and body, the body seen when a `302/303` redirect is
followed (`none` when that GET raised), and the result of the
dashboard-access probe.  `authenticate` returns the method's outcome (a
raised exception — every raise in `_authenticate` ends up wrapped in
`UpdateFailed` — is `Except.error`) together with the session state
afterwards: the state matters even on failing and raising paths, because
`_get_login_page` creates a client when none exists (lines 153-154)
before anything can fail or raise. -/

structure SessionState where
  hasSession : Bool
  closed : Bool
  logged_in : Bool
deriving DecidableEq, Repr

structure AuthInput where
  loginPageRaises : Bool
  loginPageOk : Bool
  status : ℕ
  location : String
  body : String
  redirectBody : Option String
  probe : Bool
deriving DecidableEq, Repr

/-- The redirect-follow disambiguation (lines 276-288): when the redirect
GET succeeded, its body confirms the login if it mentions `dashboard`,
`welcome` or `account`; a raise there is only logged and falls through. -/
def redirectConfirms : Option String → Bool
  | some rb =>
    pyIn "dashboard" (pyLower rb) || pyIn "welcome" (pyLower rb) || pyIn "account" (pyLower rb)
  | none => false

/-- The session-creation side effect at the top of `_get_login_page`
(lines 153-154): `if not self._session: self._session =
aiohttp.ClientSession()` — a fresh open client is created when none
exists; an existing client (even a closed one, which is still truthy) is
left in place.  The logged-in flag is untouched. -/
def ensureSession (st : SessionState) : SessionState :=
  if st.hasSession then st
  else { hasSession := true, closed := false, logged_in := st.logged_in }

/-- Model of `_authenticate`: returns the method's outcome (boolean result
or raised `UpdateFailed`) together with the session state afterwards.
Every path first runs `_get_login_page`'s client creation. -/
def authenticate (a : AuthInput) (st : SessionState) : Except Unit Bool × SessionState :=
  let st1 := ensureSession st
  if a.loginPageRaises then (.error (), st1)
  else if ¬ a.loginPageOk then (.ok false, st1)
  else if a.status = 200 ∨ a.status = 302 ∨ a.status = 303 then
    if (a.status = 302 ∨ a.status = 303) ∧
       (pyIn "dashboard" (pyLower a.location) ∨ pyIn "customers" (pyLower a.location) ∨
        pyIn "home" (pyLower a.location) ∨ a.location = "/") then
      (.ok true, { st1 with logged_in := true })
    else if pyIn "dashboard" (pyLower a.body) ∨ pyIn "welcome" (pyLower a.body) then
      (.ok true, { st1 with logged_in := true })
    else if pyIn "invalid" (pyLower a.body) ∨ pyIn "incorrect" (pyLower a.body) then
      (.error (), st1)
    else if (a.status = 302 ∨ a.status = 303) ∧ redirectConfirms a.redirectBody then
      (.ok true, { st1 with logged_in := true })
    else
      (.ok a.probe, { st1 with logged_in := true })
  else (.error (), st1)

/-- Model of `async_stop`: only when a non-closed client exists is it
closed, dropped and the flag cleared (the `try/finally` in lines 983-990);
otherwise nothing happens. -/
def async_stop (st : SessionState) : SessionState :=
  if st.hasSession ∧ ¬ st.closed then
    { hasSession := false, closed := true, logged_in := false }
  else st

/-- Model of the `session_closed` expression in the diagnostics snapshot
(line 1075): true when the client is absent or closed. -/
def sessionClosed (st : SessionState) : Bool :=
  ¬ st.hasSession ∨ st.closed

/-! ## Orchestration (`_extract_data_from_portal`, lines 715-777, and
`_async_update_data`, lines 925-978)

`Env` fixes the outcomes of the sub-calls of one update cycle:

* `csvBody`: the CSV text when the download step succeeded; `none` models
  a failed download (`raise UpdateFailed("Could not download CSV data")`)
  or any other raise inside the CSV tier before parsing — all of them are
  caught by the `except` in `_extract_data_from_portal` and start the
  fallback;
* `loggedIn`: the `_logged_in` flag at the fallback's re-auth check (it is
  false for example after a discovery failure, where `_authenticate`
  returned `False` without setting it);
* `authOutcome`: the outcome of the fallback's `_authenticate()` call;
* `scrapeOk`: whether the tier-2 scrape block (dashboard GET returning 200
  and the subsequent extractor calls) completed without raising;
* `tier3RatesRaise`: whether the tier-3 last-chance
  `_extract_rate_information()` call raised (lines 764-767);
* `ratePages`, `usageAvg`, `today`: shared inputs of the extractors. -/

structure Env where
  csvBody : Option String
  today : String
  usageAvg : Option ℚ
  ratePages : List (Option (List String))
  loggedIn : Bool
  authOutcome : Except Unit Bool
  scrapeOk : Bool
  tier3RatesRaise : Bool

/-- Tier 1: the CSV extraction attempt (lines 720-721). -/
def csvTier (e : Env) : Except Unit EDict :=
  match e.csvBody with
  | none => .error ()
  | some body =>
    extract_data_from_csv body e.today (selectRates e.ratePages).1 (selectRates e.ratePages).2
      e.usageAvg

/-- Tier 2: the dict built by the portal-scrape fallback (lines 748-755). -/
def tier2Data (e : Env) : EDict :=
  [("current_rate", (selectRates e.ratePages).1), ("next_rate", (selectRates e.ratePages).2),
   ("solar_generation", 0), ("daily_consumption", 0), ("daily_feed_in", 0),
   ("average_daily_use", e.usageAvg.getD 0)]

/-- The tier-3 best-effort rates (lines 763-767): the fixed (0.25, 0.25)
pair only when the last-chance rate extraction itself raised. -/
def tier3Rates (e : Env) : ℚ × ℚ :=
  if e.tier3RatesRaise then (0.25, 0.25) else selectRates e.ratePages

/-- Tier 3: the default dict (lines 770-777). -/
def tier3Data (e : Env) : EDict :=
  [("current_rate", (tier3Rates e).1), ("next_rate", (tier3Rates e).2),
   ("solar_generation", 0), ("daily_consumption", 0), ("daily_feed_in", 0),
   ("average_daily_use", 0)]

/-- Model of `_extract_data_from_portal`: try the CSV tier; on any raise
fall back — but the fallback first re-authenticates when the session is
not logged in, and a `False` return (`raise UpdateFailed("Authentication
failed")`, line 728) or a raise from `_authenticate` itself escapes this
method, because only the scrape attempt below it is wrapped in the inner
`try` (lines 730-777). -/
def extract_data_from_portal (e : Env) : Except Unit EDict :=
  match csvTier e with
  | .ok d => .ok d
  | .error _ =>
    if ¬ e.loggedIn then
      match e.authOutcome with
      | .error _ => .error ()
      | .ok false => .error ()
      | .ok true => .ok (if e.scrapeOk then tier2Data e else tier3Data e)
    else .ok (if e.scrapeOk then tier2Data e else tier3Data e)

/-- The `required_keys` list of `_async_update_data` (line 948).  Note that
it has five entries: `average_daily_use` is not among them. -/
def required_keys : List String :=
  ["current_rate", "next_rate", "solar_generation", "daily_consumption", "daily_feed_in"]

/-- The validation loop of `_async_update_data` (lines 949-952): each key
of `required_keys` that is absent is set to 0.0. -/
def fillRequired (d : EDict) : EDict :=
  required_keys.foldl (fun d k => if (dget d k).isSome then d else dset d k 0) d

/-- Model of `_async_update_data`: run the portal extraction, re-raise a
raised `UpdateFailed` (lines 957-960), and validate the dict otherwise.
(The `data is None` check cannot fire: `_extract_data_from_portal` always
returns a dict or raises.) -/
def async_update_data (e : Env) : Except Unit EDict :=
  match extract_data_from_portal e with
  | .error u => .error u
  | .ok d => .ok (fillRequired d)

/-! ## Credential surface (`_authenticate` logging, lines 217-218, and
`get_diagnostics_data`, lines 1063-1079) -/

/-- The log lines emitted at the top of `_authenticate` (lines 217-218).
The coordinator holds both credentials; the emitted text interpolates
`self.username` in full and never references `self.password`. -/
def authStartLogs (username : String) (_pw : String) : List String :=
  ["🔐 Starting authentication process...", "Username: " ++ username]

/-- The coordinator fields read by `get_diagnostics_data`. -/
structure CoordState where
  username : String
  password : String
  retry_count : ℕ
  login_url : String
  dashboard_url : String
  usage_url : String
  billing_url : String
  session : SessionState

/-- The static part of the diagnostics snapshot (lines 1065-1079). -/
structure DiagnosticsData where
  username : String
  logged_in : Bool
  retry_count : ℕ
  login_url : String
  dashboard_url : String
  usage_url : String
  billing_url : String
  session_closed : Bool
deriving DecidableEq, Repr

/-- Model of `get_diagnostics_data` (static fields): the `username` entry
is `self.username` verbatim. -/
def get_diagnostics_data (c : CoordState) : DiagnosticsData :=
  { username := c.username
    logged_in := c.session.logged_in
    retry_count := c.retry_count
    login_url := c.login_url
    dashboard_url := c.dashboard_url
    usage_url := c.usage_url
    billing_url := c.billing_url
    session_closed := sessionClosed c.session }

/-! ## Helper lemmas -/

theorem dget_dset (d : EDict) (k k' : String) (v : ℚ) :
    dget (dset d k v) k' = if k = k' then some v else dget d k' := by
  induction d with
  | nil => by_cases h : k = k' <;> simp [dget, dset, h]
  | cons p d ih =>
    obtain ⟨k0, v0⟩ := p
    by_cases h1 : k0 = k <;> by_cases h2 : k0 = k' <;> by_cases h3 : k = k' <;>
      simp_all [dget, dset]

theorem dget_dset_self (d : EDict) (k : String) (v : ℚ) :
    dget (dset d k v) k = some v := by
  simp [dget_dset]

theorem dget_dset_ne (d : EDict) (k k' : String) (v : ℚ) (h : k ≠ k') :
    dget (dset d k v) k' = dget d k' := by
  simp [dget_dset, h]

/-! ## Claim C4: rate normalization and plausibility band -/

section RatEval

attribute [local semireducible] Rat.add Rat.mul Rat.inv Rat.sub Rat.ofScientific

/-- C4: a numeric rate candidate is divided by 100 exactly when it is
greater than 10, and it is retained (with its normalized value) exactly
when the normalized value lies in the band [0.15, 0.50]; in particular
25.5 is retained as 0.255, 0.30 is retained unchanged, and 75 (normalized
to 0.75) is excluded. -/
theorem rate_normalization_band :
    (∀ r : ℚ, 10 < r → normalizeRate r = r / 100) ∧
    (∀ r : ℚ, ¬ 10 < r → normalizeRate r = r) ∧
    (∀ r : ℚ, rateFilter r ≠ none ↔ 0.15 ≤ normalizeRate r ∧ normalizeRate r ≤ 0.50) ∧
    (∀ r : ℚ, rateFilter r ≠ none → rateFilter r = some (normalizeRate r)) ∧
    rateFilter 25.5 = some 0.255 ∧ rateFilter 0.30 = some 0.30 ∧ rateFilter 75 = none := by
  refine ⟨?_, ?_, ?_, ?_, by decide, by decide, by decide⟩
  · intro r h; simp [normalizeRate, h]
  · intro r h; simp [normalizeRate, h]
  · intro r
    by_cases h : (0.15 : ℚ) ≤ normalizeRate r ∧ normalizeRate r ≤ 0.50 <;>
      simp [rateFilter, h]
  · intro r h
    by_cases h2 : (0.15 : ℚ) ≤ normalizeRate r ∧ normalizeRate r ≤ 0.50 <;>
      simp_all [rateFilter]

/-- Witness for C4: the normalization branches applied at concrete
inputs. -/
theorem rate_normalization_band_witness :
    normalizeRate 20 = 20 / 100 ∧ normalizeRate 5 = 5 :=
  ⟨rate_normalization_band.1 20 (by decide), rate_normalization_band.2.1 5 (by decide)⟩

end RatEval

/-! ## Claim C2: per-row aggregation for today's date -/

theorem halfHourValues_eq_range (parts : List String) (h : 52 ≤ parts.length) :
    halfHourValues parts = (List.range 48).map (fun i => pyFloatD (parts.getD (i + 4) "")) := by
  unfold halfHourValues
  rw [Nat.min_eq_left h]
  rw [show (52 - 4 : ℕ) = 48 from rfl, List.range'_eq_map_range, List.map_map]
  refine List.map_congr_left ?_
  intro i _
  simp [Function.comp, Nat.add_comm]

/-- C2: for a data row with at least 52 fields whose meter element (field
2) is `Feed-in` and whose date (field 3) is today's date, the aggregation
loop sets `daily_feed_in` to the exact sum of the parsed fields 4..51 and
`solar_generation` to the last value greater than zero scanning those 48
values from index 47 down to 0 (whenever such a value exists); for a
matching `Consumption` row the same sum becomes `daily_consumption`. -/
theorem csv_row_aggregation (today : String) (d : EDict) (parts : List String)
    (hlen : 52 ≤ parts.length) (hdate : parts.getD 3 "" = today) :
    (parts.getD 2 "" = "Feed-in" →
      dget (processParts today d parts) "daily_feed_in"
        = some (((List.range 48).map (fun i => pyFloatD (parts.getD (i + 4) ""))).sum) ∧
      ∀ v : ℚ,
        (((List.range 48).map (fun i => pyFloatD (parts.getD (i + 4) ""))).reverse.find?
            (fun x => decide (0 < x)) = some v) →
          dget (processParts today d parts) "solar_generation" = some v) ∧
    (parts.getD 2 "" = "Consumption" →
      dget (processParts today d parts) "daily_consumption"
        = some (((List.range 48).map (fun i => pyFloatD (parts.getD (i + 4) ""))).sum)) := by
  have hnl : ¬ parts.length < 52 := Nat.not_lt.mpr hlen
  have hhv := halfHourValues_eq_range parts hlen
  have hd2 : ¬ (parts.getD 3 "" ≠ today) := fun hne => hne hdate
  constructor
  · intro hfi
    simp only [processParts]
    rw [if_neg hnl, if_neg hd2, if_pos hfi, ← hhv]
    refine ⟨?_, ?_⟩
    · cases hf : (halfHourValues parts).reverse.find? (fun x => decide (0 < x)) with
      | none => simp only [hf]; exact dget_dset_self _ _ _
      | some v0 =>
        simp only [hf]
        rw [dget_dset_ne _ _ _ _ (by decide)]
        exact dget_dset_self _ _ _
    · intro v hv
      simp only [hv]
      exact dget_dset_self _ _ _
  · intro hc
    have hnfi : ¬ (parts.getD 2 "" = "Feed-in") := by
      intro h
      rw [hc] at h
      exact absurd h (by decide)
    simp only [processParts]
    rw [if_neg hnl, if_neg hd2, if_neg hnfi, if_pos hc, ← hhv]
    exact dget_dset_self _ _ _

section RatEvalB

attribute [local semireducible] Rat.add Rat.mul Rat.inv Rat.sub Rat.ofScientific

/-- A concrete `Feed-in` row for the C2 witness: 44 zero slots followed by
the values 1.5, 0, 2.5, 0. -/
def wpartsC2 : List String :=
  ["a", "b", "Feed-in", "1/9/2025"] ++ List.replicate 44 "0" ++ ["1.5", "0", "2.5", "0"]

/-- Witness for C2: on the concrete row the aggregation records the sum in
`daily_feed_in` and the last positive value, 2.5, in `solar_generation`. -/
theorem csv_row_aggregation_witness :
    52 ≤ wpartsC2.length ∧
    dget (processParts "1/9/2025" [] wpartsC2) "daily_feed_in"
      = some (((List.range 48).map (fun i => pyFloatD (wpartsC2.getD (i + 4) ""))).sum) ∧
    dget (processParts "1/9/2025" [] wpartsC2) "solar_generation" = some 2.5 := by
  have h := csv_row_aggregation "1/9/2025" [] wpartsC2 (by decide) (by decide)
  exact ⟨by decide, (h.1 (by decide)).1, (h.1 (by decide)).2 2.5 (by decide)⟩

end RatEvalB

/-! ## Claims C3 and C10: the most-recent-date fallback -/

theorem processLine_of_date_ne (today : String) (d : EDict) (l : String)
    (h : (pySplit ',' l).getD 3 "" ≠ today) :
    processLine today d l = d := by
  unfold processLine
  by_cases hs : pyStrip l = ""
  · rw [if_pos hs]
  · rw [if_neg hs]
    unfold processParts
    by_cases hl : (pySplit ',' l).length < 52
    · rw [if_pos hl]
    · rw [if_neg hl, if_pos h]

theorem foldl_processLine_of_date_ne (today : String) (d : EDict) (ls : List String)
    (h : ∀ l ∈ ls, (pySplit ',' l).getD 3 "" ≠ today) :
    ls.foldl (processLine today) d = d := by
  induction ls generalizing d with
  | nil => rfl
  | cons a ls ih =>
    rw [List.foldl_cons, processLine_of_date_ne today d a (h a (by simp))]
    exact ih d (fun l hl => h l (by simp [hl]))

theorem dget_mergeAvg_ne (avg : Option ℚ) (d : EDict) (k : String)
    (h : ¬ ("average_daily_use" = k)) :
    dget (mergeAvg avg d) k = dget d k := by
  cases avg with
  | none => rfl
  | some v => exact dget_dset_ne d "average_daily_use" k v h

/-- C3: when no data row carries today's date, the first aggregation pass
leaves the dict untouched, the fallback fires, and the aggregation is
repeated restricted to the last entry (in file order) of the collected
date list. -/
theorem csv_recent_date_fallback (lines : List String) (today : String) (cur nxt : ℚ)
    (avg : Option ℚ) (r : String)
    (hno : ∀ l ∈ lines.drop 1, (pySplit ',' l).getD 3 "" ≠ today)
    (hlast : (recentDatesOf lines).getLast? = some r) :
    extractCore lines today cur nxt avg
      = (lines.drop 1).foldl (processLine r) (mergeAvg avg (csvInit cur nxt)) := by
  unfold extractCore
  rw [foldl_processLine_of_date_ne today _ _ hno]
  have hcons : dget (mergeAvg avg (csvInit cur nxt)) "daily_consumption" = some 0 := by
    rw [dget_mergeAvg_ne _ _ _ (by decide)]; rfl
  have hfeed : dget (mergeAvg avg (csvInit cur nxt)) "daily_feed_in" = some 0 := by
    rw [dget_mergeAvg_ne _ _ _ (by decide)]; rfl
  rw [if_pos (by rw [hcons, hfeed]; exact ⟨rfl, rfl⟩), hlast]

/-- Witness lines for C3: a header and two short data rows dated 1/1/2024
and then 2/1/2024, neither matching today. -/
def wlinesC3 : List String :=
  ["header", "a,b,Consumption,1/1/2024,5", "a,b,Consumption,2/1/2024,7"]

/-- Witness for C3: the fallback date is 2/1/2024 (last in file order, not
1/1/2024) and the parse equals the aggregation re-run with that date. -/
theorem csv_recent_date_fallback_witness :
    (recentDatesOf wlinesC3).getLast? = some "2/1/2024" ∧
    extractCore wlinesC3 "5/9/2025" 0.25 0.25 none
      = (wlinesC3.drop 1).foldl (processLine "2/1/2024") (mergeAvg none (csvInit 0.25 0.25)) :=
  ⟨by decide,
   csv_recent_date_fallback wlinesC3 "5/9/2025" 0.25 0.25 none "2/1/2024" (by decide) (by decide)⟩

theorem processLine_preserves_zero (today : String) (d : EDict) (l : String)
    (hz : (pySplit ',' l).getD 3 "" = today → ∀ v ∈ halfHourValues (pySplit ',' l), v = 0)
    (hc : dget d "daily_consumption" = some 0) (hf : dget d "daily_feed_in" = some 0) :
    dget (processLine today d l) "daily_consumption" = some 0 ∧
    dget (processLine today d l) "daily_feed_in" = some 0 := by
  unfold processLine
  by_cases hs : pyStrip l = ""
  · rw [if_pos hs]; exact ⟨hc, hf⟩
  · rw [if_neg hs]
    unfold processParts
    by_cases hl : (pySplit ',' l).length < 52
    · rw [if_pos hl]; exact ⟨hc, hf⟩
    · rw [if_neg hl]
      by_cases hd : (pySplit ',' l).getD 3 "" ≠ today
      · rw [if_pos hd]; exact ⟨hc, hf⟩
      · rw [if_neg hd]
        have hall := hz (by revert hd; tauto)
        have hsum : (halfHourValues (pySplit ',' l)).sum = 0 := List.sum_eq_zero hall
        have hfind : (halfHourValues (pySplit ',' l)).reverse.find?
            (fun v => decide (0 < v)) = none := by
          rw [List.find?_eq_none]
          intro v hv
          rw [hall v (List.mem_reverse.mp hv)]
          decide
        by_cases hfi : (pySplit ',' l).getD 2 "" = "Feed-in"
        · rw [if_pos hfi]
          simp only [hfind, hsum]
          refine ⟨?_, ?_⟩
          · rw [dget_dset_ne _ _ _ _ (by decide)]; exact hc
          · exact dget_dset_self _ _ _
        · rw [if_neg hfi]
          by_cases hco : (pySplit ',' l).getD 2 "" = "Consumption"
          · rw [if_pos hco, hsum]
            exact ⟨dget_dset_self _ _ _, by rw [dget_dset_ne _ _ _ _ (by decide)]; exact hf⟩
          · rw [if_neg hco]; exact ⟨hc, hf⟩

theorem foldl_preserves_zero (today : String) (d : EDict) (ls : List String)
    (hz : ∀ l ∈ ls, (pySplit ',' l).getD 3 "" = today →
      ∀ v ∈ halfHourValues (pySplit ',' l), v = 0)
    (hc : dget d "daily_consumption" = some 0) (hf : dget d "daily_feed_in" = some 0) :
    dget (ls.foldl (processLine today) d) "daily_consumption" = some 0 ∧
    dget (ls.foldl (processLine today) d) "daily_feed_in" = some 0 := by
  induction ls generalizing d with
  | nil => exact ⟨hc, hf⟩
  | cons a ls ih =>
    rw [List.foldl_cons]
    obtain ⟨hc', hf'⟩ := processLine_preserves_zero today d a (hz a (by simp)) hc hf
    exact ih _ (fun l hl => hz l (by simp [hl])) hc' hf'

/-- C10: the fallback is triggered by both totals being 0.0 after the first
pass, not by the absence of rows for today; a CSV whose today rows are all
zero still falls back and re-aggregates the last date in file order. -/
theorem csv_zero_today_fallback (lines : List String) (today : String) (cur nxt : ℚ)
    (avg : Option ℚ) (r : String)
    (hzero : ∀ l ∈ lines.drop 1, (pySplit ',' l).getD 3 "" = today →
      ∀ v ∈ halfHourValues (pySplit ',' l), v = 0)
    (_hsome : ∃ l ∈ lines.drop 1,
      (pySplit ',' l).getD 3 "" = today ∧ 52 ≤ (pySplit ',' l).length)
    (hlast : (recentDatesOf lines).getLast? = some r) :
    extractCore lines today cur nxt avg
      = (lines.drop 1).foldl (processLine r)
          (mergeAvg avg ((lines.drop 1).foldl (processLine today) (csvInit cur nxt))) := by
  unfold extractCore
  obtain ⟨hc1, hf1⟩ :=
    foldl_preserves_zero today (csvInit cur nxt) (lines.drop 1) hzero rfl rfl
  have hcons : dget (mergeAvg avg ((lines.drop 1).foldl (processLine today) (csvInit cur nxt)))
      "daily_consumption" = some 0 := by
    rw [dget_mergeAvg_ne _ _ _ (by decide)]; exact hc1
  have hfeed : dget (mergeAvg avg ((lines.drop 1).foldl (processLine today) (csvInit cur nxt)))
      "daily_feed_in" = some 0 := by
    rw [dget_mergeAvg_ne _ _ _ (by decide)]; exact hf1
  rw [if_pos (by rw [hcons, hfeed]; exact ⟨rfl, rfl⟩), hlast]

section RatEvalC

attribute [local semireducible] Rat.add Rat.mul Rat.inv Rat.sub Rat.ofScientific

/-- Witness lines for C10: a full-width all-zero `Feed-in` row dated today
(9/9/2025) followed by a `Consumption` row for the previous day summing
to 3. -/
def wlinesC10 : List String :=
  ["header",
   "a,b,Feed-in,9/9/2025,0,0,0,0,0,0,0,0,0,0,0,0,0,0,0,0,0,0,0,0,0,0,0,0,0,0,0,0,0,0,0,0,0,0,0,0,0,0,0,0,0,0,0,0,0,0,0,0",
   "a,b,Consumption,8/9/2025,0,0,0,0,0,0,0,0,0,0,0,0,0,0,0,0,0,0,0,0,0,0,0,0,0,0,0,0,0,0,0,0,0,0,0,0,0,0,0,0,0,0,0,0,0,0,0,3"]

/-- Witness for C10: today's rows exist but are all zero, so the parse
falls back to 8/9/2025 (the last date in file order) and reports that
day's consumption, 3. -/
theorem csv_zero_today_fallback_witness :
    (∃ l ∈ wlinesC10.drop 1,
      (pySplit ',' l).getD 3 "" = "9/9/2025" ∧ 52 ≤ (pySplit ',' l).length) ∧
    extractCore wlinesC10 "9/9/2025" 0.25 0.25 none
      = (wlinesC10.drop 1).foldl (processLine "8/9/2025")
          (mergeAvg none ((wlinesC10.drop 1).foldl (processLine "9/9/2025") (csvInit 0.25 0.25))) ∧
    dget (extractCore wlinesC10 "9/9/2025" 0.25 0.25 none) "daily_consumption" = some 3 :=
  ⟨by decide,
   csv_zero_today_fallback wlinesC10 "9/9/2025" 0.25 0.25 none "8/9/2025"
     (by decide) (by decide) (by decide),
   by decide⟩

end RatEvalC

/-! ## Claim C5: mode selection, early stop, shared rate fields -/

theorem foldl_occs_ne_nil (xs : List ℚ) (acc : List ℚ) (h : acc ≠ []) :
    xs.foldl (fun acc x => if x ∈ acc then acc else acc ++ [x]) acc ≠ [] := by
  induction xs generalizing acc with
  | nil => exact h
  | cons x xs ih =>
    rw [List.foldl_cons]
    apply ih
    by_cases hx : x ∈ acc
    · rw [if_pos hx]; exact h
    · rw [if_neg hx]; simp

theorem firstOccs_ne_nil (l : List ℚ) (h : l ≠ []) : firstOccs l ≠ [] := by
  cases l with
  | nil => exact absurd rfl h
  | cons x xs =>
    unfold firstOccs
    rw [List.foldl_cons]
    apply foldl_occs_ne_nil
    simp

theorem mostCommonQ_isSome (l : List ℚ) (h : l ≠ []) :
    ∃ m, mostCommonQ l = some m := by
  unfold mostCommonQ
  cases hfo : firstOccs l with
  | nil => exact absurd hfo (firstOccs_ne_nil l h)
  | cons x xs => exact ⟨_, rfl⟩

theorem mostCommonQ_singleton (a : ℚ) : mostCommonQ [a] = some a := by
  unfold mostCommonQ firstOccs
  rw [List.foldl_cons, if_neg (by simp), List.nil_append, List.foldl_nil]
  rfl

theorem selectRates_skip_unproductive (pre : List (Option (List String)))
    (rest : List (Option (List String))) (hpre : ∀ p ∈ pre, pageYield p = []) :
    selectRates (pre ++ rest) = selectRates rest := by
  induction pre with
  | nil => rfl
  | cons p pre ih =>
    cases p with
    | none =>
      rw [List.cons_append]
      simp only [selectRates]
      exact ih (fun q hq => hpre q (by simp [hq]))
    | some ms =>
      have h0 : pageCandidates ms = [] := hpre (some ms) (by simp)
      rw [List.cons_append]
      simp only [selectRates]
      rw [if_pos h0]
      exact ih (fun q hq => hpre q (by simp [hq]))

theorem selectRates_productive_head (ms : List String) (post : List (Option (List String)))
    (hms : pageCandidates ms ≠ []) :
    ∃ m, mostCommonQ (pageCandidates ms) = some m ∧
      selectRates (some ms :: post) = (m, m) := by
  obtain ⟨m, hm⟩ := mostCommonQ_isSome (pageCandidates ms) hms
  refine ⟨m, hm, ?_⟩
  simp only [selectRates]
  rw [if_neg hms]
  by_cases hlen : 1 < (pageCandidates ms).length
  · rw [if_pos hlen, hm]; rfl
  · rw [if_neg hlen]
    have h1 : (pageCandidates ms).length = 1 := by
      rcases Nat.lt_or_ge (pageCandidates ms).length 2 with h | h
      · interval_cases hx : (pageCandidates ms).length
        · exact absurd (List.length_eq_zero.mp hx) hms
        · rfl
      · exact absurd h (by omega)
    obtain ⟨a, ha⟩ := List.length_eq_one.mp h1
    rw [ha] at hm ⊢
    rw [mostCommonQ_singleton] at hm
    obtain rfl : a = m := Option.some.inj hm
    rfl

section RatEvalD

attribute [local semireducible] Rat.add Rat.mul Rat.inv Rat.sub Rat.ofScientific

/-- C5: the page scan stops at the first page with at least one surviving
candidate and selects its most frequent candidate value (ties to the first
encountered), assigning it to both rate fields; the two fields are equal
on every input; and when no page yields a candidate both fields are the
default 0.25.  The mode of [0.25, 0.30, 0.25, 0.25] is 0.25. -/
theorem rate_mode_selection :
    (∀ pre ms post, (∀ p ∈ pre, pageYield p = []) → pageCandidates ms ≠ [] →
      ∃ m, mostCommonQ (pageCandidates ms) = some m ∧
        selectRates (pre ++ some ms :: post) = (m, m)) ∧
    (∀ pages, (∀ p ∈ pages, pageYield p = []) → selectRates pages = (0.25, 0.25)) ∧
    (∀ pages, (selectRates pages).1 = (selectRates pages).2) ∧
    mostCommonQ [0.25, 0.30, 0.25, 0.25] = some 0.25 := by
  refine ⟨?_, ?_, ?_, by decide⟩
  · intro pre ms post hpre hms
    obtain ⟨m, hm, hsel⟩ := selectRates_productive_head ms post hms
    exact ⟨m, hm, by rw [selectRates_skip_unproductive pre _ hpre]; exact hsel⟩
  · intro pages h
    have := selectRates_skip_unproductive pages [] h
    rw [List.append_nil] at this
    exact this
  · intro pages
    induction pages with
    | nil => rfl
    | cons p rest ih =>
      cases p with
      | none => simpa only [selectRates] using ih
      | some ms =>
        simp only [selectRates]
        by_cases h0 : pageCandidates ms = []
        · rw [if_pos h0]; exact ih
        · rw [if_neg h0]
          by_cases hlen : 1 < (pageCandidates ms).length
          · rw [if_pos hlen]
          · rw [if_neg hlen]

/-- Witness for C5: two unproductive pages (a failed request and a page
whose only candidate 99 is implausible) are skipped, the third page's
candidates [0.25, 0.30, 0.25, 0.25] select the mode 0.25 for both fields,
and the fourth page is never consulted. -/
theorem rate_mode_selection_witness :
    selectRates [none, some ["99"], some ["0.25", "0.30", "0.25", "0.25"], some ["0.45"]]
      = (0.25, 0.25) := by
  obtain ⟨m, hm, hsel⟩ := rate_mode_selection.1 [none, some ["99"]]
    ["0.25", "0.30", "0.25", "0.25"] [some ["0.45"]] (by decide) (by decide)
  have h2 : mostCommonQ (pageCandidates ["0.25", "0.30", "0.25", "0.25"]) = some 0.25 := by decide
  rw [hm] at h2
  obtain rfl : m = 0.25 := Option.some.inj h2
  exact hsel

end RatEvalD

/-! ## Claim C1: what escapes the pipeline boundary -/

/-- A total-network-failure scenario: the CSV download fails, the session
was never logged in, and the fallback's re-authentication returns `False`
(as `_authenticate` does when login-page discovery finds nothing). -/
def envAuthFailC1 : Env :=
  { csvBody := none, today := "", usageAvg := none, ratePages := [],
    loggedIn := false, authOutcome := .ok false, scrapeOk := false, tier3RatesRaise := false }

/-- C1 counterexample: under total network failure (CSV tier fails, not
logged in, re-authentication reports failure) the pipeline raises
`UpdateFailed` out of `_extract_data_from_portal`, and `_async_update_data`
re-raises it instead of returning an all-default reading. -/
theorem pipeline_raises_on_auth_failure :
    async_update_data envAuthFailC1 = .error () ∧
    extract_data_from_portal envAuthFailC1 = .error () := ⟨rfl, rfl⟩

/-- C1 amended: the pipeline raises exactly when the CSV tier fails while
the session is not logged in and the fallback re-authentication does not
succeed; whenever the fallback is reached and the scrape attempt itself
fails, the returned reading is the default dict with zeroed fields and
best-effort rates. -/
theorem pipeline_error_characterization (e : Env) :
    (async_update_data e = .error () ↔
      csvTier e = .error () ∧ e.loggedIn = false ∧ e.authOutcome ≠ .ok true) ∧
    (csvTier e = .error () → (e.loggedIn = true ∨ e.authOutcome = .ok true) →
      e.scrapeOk = false → async_update_data e = .ok (fillRequired (tier3Data e))) := by
  cases hcsv : csvTier e with
  | ok d => simp [async_update_data, extract_data_from_portal, hcsv]
  | error u =>
    obtain ⟨⟩ := u
    cases hl : e.loggedIn with
    | false =>
      cases hao : e.authOutcome with
      | error u2 =>
        obtain ⟨⟩ := u2
        simp [async_update_data, extract_data_from_portal, hcsv, hl, hao]
      | ok b =>
        cases b with
        | false => simp [async_update_data, extract_data_from_portal, hcsv, hl, hao]
        | true =>
          cases hso : e.scrapeOk <;>
            simp [async_update_data, extract_data_from_portal, hcsv, hl, hao, hso]
    | true =>
      cases hso : e.scrapeOk <;>
        simp [async_update_data, extract_data_from_portal, hcsv, hl, hso]

/-- A scenario reaching tier 3: CSV fails, the session is logged in, the
scrape attempt raises, and the tier-3 rate extraction also raises. -/
def envTier3C1 : Env :=
  { csvBody := none, today := "", usageAvg := none, ratePages := [],
    loggedIn := true, authOutcome := .ok true, scrapeOk := false, tier3RatesRaise := true }

/-- Witness for the amended C1: when the fallback is reached and the
scrape fails, the pipeline returns the validated tier-3 default dict. -/
theorem pipeline_error_characterization_witness :
    async_update_data envTier3C1 = .ok (fillRequired (tier3Data envTier3C1)) :=
  (pipeline_error_characterization envTier3C1).2 rfl (Or.inl rfl) rfl

/-! ## Claim C6: presence of the six reading keys -/

/-- C6 counterexample: the validation loop checks only `required_keys`,
which omits `average_daily_use`, so a record missing that key passes
validation without it being filled. -/
theorem validation_misses_average_key :
    dget (fillRequired []) "average_daily_use" = none ∧
    "average_daily_use" ∉ required_keys := by decide

theorem dset_keeps (d : EDict) (k k' : String) (v : ℚ) (h : (dget d k').isSome) :
    (dget (dset d k v) k').isSome := by
  rw [dget_dset]
  split
  · rfl
  · exact h

theorem processParts_keeps (today : String) (d : EDict) (parts : List String) (k : String)
    (h : (dget d k).isSome) : (dget (processParts today d parts) k).isSome := by
  simp only [processParts]
  split
  · exact h
  split
  · exact h
  split
  · split
    · exact dset_keeps _ _ _ _ (dset_keeps _ _ _ _ h)
    · exact dset_keeps _ _ _ _ h
  split
  · exact dset_keeps _ _ _ _ h
  · exact h

theorem processLine_keeps (today : String) (d : EDict) (l : String) (k : String)
    (h : (dget d k).isSome) : (dget (processLine today d l) k).isSome := by
  unfold processLine
  split
  · exact h
  · exact processParts_keeps _ _ _ _ h

theorem foldl_processLine_keeps (today : String) (d : EDict) (ls : List String) (k : String)
    (h : (dget d k).isSome) : (dget (ls.foldl (processLine today) d) k).isSome := by
  induction ls generalizing d with
  | nil => exact h
  | cons a ls ih => exact ih _ (processLine_keeps _ _ _ _ h)

theorem mergeAvg_keeps (avg : Option ℚ) (d : EDict) (k : String)
    (h : (dget d k).isSome) : (dget (mergeAvg avg d) k).isSome := by
  cases avg with
  | none => exact h
  | some v => exact dset_keeps _ _ _ _ h

theorem extractCore_keeps (lines : List String) (today : String) (cur nxt : ℚ)
    (avg : Option ℚ) (k : String) (h : (dget (csvInit cur nxt) k).isSome) :
    (dget (extractCore lines today cur nxt avg) k).isSome := by
  have h1 := foldl_processLine_keeps today (csvInit cur nxt) (lines.drop 1) k h
  have h2 := mergeAvg_keeps avg _ k h1
  simp only [extractCore]
  by_cases hc :
      (dget (mergeAvg avg ((lines.drop 1).foldl (processLine today) (csvInit cur nxt)))
        "daily_consumption").getD 0 = 0 ∧
      (dget (mergeAvg avg ((lines.drop 1).foldl (processLine today) (csvInit cur nxt)))
        "daily_feed_in").getD 0 = 0
  · rw [if_pos hc]
    cases hr : (recentDatesOf lines).getLast? with
    | none => exact h2
    | some r => exact foldl_processLine_keeps _ _ _ _ h2
  · rw [if_neg hc]
    exact h2

theorem fillRequired_keeps (d : EDict) (k : String) (h : (dget d k).isSome) :
    (dget (fillRequired d) k).isSome := by
  unfold fillRequired
  generalize required_keys = ks
  induction ks generalizing d with
  | nil => exact h
  | cons a ks ih =>
    rw [List.foldl_cons]
    split
    · exact ih _ h
    · exact ih _ (dset_keeps _ _ _ _ h)

theorem csvInit_has_six (cur nxt : ℚ) :
    ∀ k ∈ ["current_rate", "next_rate", "solar_generation", "daily_consumption",
           "daily_feed_in", "average_daily_use"], (dget (csvInit cur nxt) k).isSome = true := by
  intro k hk
  fin_cases hk <;> rfl

theorem tier2Data_has_six (e : Env) :
    ∀ k ∈ ["current_rate", "next_rate", "solar_generation", "daily_consumption",
           "daily_feed_in", "average_daily_use"], (dget (tier2Data e) k).isSome = true := by
  intro k hk
  fin_cases hk <;> rfl

theorem tier3Data_has_six (e : Env) :
    ∀ k ∈ ["current_rate", "next_rate", "solar_generation", "daily_consumption",
           "daily_feed_in", "average_daily_use"], (dget (tier3Data e) k).isSome = true := by
  intro k hk
  fin_cases hk <;> rfl

theorem scrape_fallback_has_six (e : Env) :
    ∀ k ∈ ["current_rate", "next_rate", "solar_generation", "daily_consumption",
           "daily_feed_in", "average_daily_use"],
      (dget (if e.scrapeOk then tier2Data e else tier3Data e) k).isSome = true := by
  split
  · exact tier2Data_has_six e
  · exact tier3Data_has_six e

theorem portal_ok_keys (e : Env) (d : EDict) (h : extract_data_from_portal e = .ok d) :
    ∀ k ∈ ["current_rate", "next_rate", "solar_generation", "daily_consumption",
           "daily_feed_in", "average_daily_use"], (dget d k).isSome = true := by
  unfold extract_data_from_portal at h
  cases hcsv : csvTier e with
  | ok dcsv =>
    simp only [hcsv] at h
    obtain rfl := Except.ok.inj h
    unfold csvTier at hcsv
    cases hb : e.csvBody with
    | none => rw [hb] at hcsv; cases hcsv
    | some body =>
      simp only [hb, extract_data_from_csv] at hcsv
      split at hcsv
      · cases hcsv
      · obtain rfl := Except.ok.inj hcsv
        intro k hk
        exact extractCore_keeps _ _ _ _ _ k (csvInit_has_six _ _ k hk)
  | error u =>
    simp only [hcsv] at h
    by_cases hl : e.loggedIn
    · rw [if_neg (by simp [hl])] at h
      obtain rfl := Except.ok.inj h
      exact scrape_fallback_has_six e
    · rw [if_pos (by simp [hl])] at h
      cases hao : e.authOutcome with
      | error u2 => rw [hao] at h; cases h
      | ok b =>
        cases b with
        | false => rw [hao] at h; cases h
        | true =>
          rw [hao] at h
          obtain rfl := Except.ok.inj h
          exact scrape_fallback_has_six e

/-- C6 amended: every reading returned by a completed update cycle does
contain all six keys — but because every assembly path constructs all six,
not because of the validation loop (which checks only the five
`required_keys` and never `average_daily_use`). -/
theorem reading_has_all_six_keys (e : Env) (d : EDict)
    (h : async_update_data e = .ok d) :
    ∀ k ∈ ["current_rate", "next_rate", "solar_generation", "daily_consumption",
           "daily_feed_in", "average_daily_use"], (dget d k).isSome = true := by
  unfold async_update_data at h
  cases hport : extract_data_from_portal e with
  | error u => rw [hport] at h; cases h
  | ok d0 =>
    rw [hport] at h
    obtain rfl : fillRequired d0 = d := by simpa using h
    intro k hk
    exact fillRequired_keeps _ _ (portal_ok_keys e d0 hport k hk)

/-- Witness for the amended C6: the tier-3 default reading of the concrete
environment above carries all six keys. -/
theorem reading_has_all_six_keys_witness :
    (dget (fillRequired (tier3Data envTier3C1)) "average_daily_use").isSome = true :=
  reading_has_all_six_keys envTier3C1 (fillRequired (tier3Data envTier3C1)) rfl
    "average_daily_use" (by decide)

/-! ## Claim C7: session invalidation -/

/-- An ambiguous authentication response: HTTP 200 whose body mentions
none of the classification keywords, with a failing dashboard probe. -/
def ambiguousAuthC7 : AuthInput :=
  { loginPageRaises := false, loginPageOk := true, status := 200, location := "",
    body := "please wait", redirectBody := none, probe := false }

/-- C7 counterexample: on the ambiguous-response path `_authenticate` sets
`_logged_in = True` before probing, so it reports failure (returns
`False`) while leaving the logged-in flag true — and the client open. -/
theorem auth_failure_leaves_flag_set :
    authenticate ambiguousAuthC7 { hasSession := true, closed := false, logged_in := false }
      = (.ok false, { hasSession := true, closed := false, logged_in := true }) := rfl

theorem ensureSession_spec (st : SessionState) :
    (ensureSession st).hasSession = true ∧
    (ensureSession st).closed = (st.hasSession && st.closed) ∧
    (ensureSession st).logged_in = st.logged_in := by
  unfold ensureSession
  by_cases h : st.hasSession = true
  · rw [if_pos h]
    simp [h]
  · rw [if_neg h]
    have h' : st.hasSession = false := by
      cases hh : st.hasSession
      · rfl
      · exact absurd hh h
    simp [h']

theorem authenticate_client_state (a : AuthInput) (st : SessionState)
    (r : Except Unit Bool) (st' : SessionState) (h : authenticate a st = (r, st')) :
    st'.hasSession = true ∧ st'.closed = (st.hasSession && st.closed) ∧
    (st'.logged_in = true ∨ st'.logged_in = st.logged_in) := by
  obtain ⟨h1, h2, h3⟩ := ensureSession_spec st
  unfold authenticate at h
  repeat' split at h
  all_goals (injection h with hr hst; subst hst)
  all_goals first
    | exact ⟨h1, h2, Or.inl rfl⟩
    | exact ⟨h1, h2, Or.inr h3⟩

/-- C7 amended: only `async_stop` invalidates the session — on a
non-closed client it closes it, drops it and clears the flag.
`_authenticate` never closes the client and never clears the flag: every
call (success, failure return or raise) first creates an open client when
none exists, leaves an already existing client untouched, and either sets
the flag to true or leaves it as it was; in particular a discovery-failure
authentication returns `False` with the flag untouched but a client
ensured, and the ambiguous-response path returns the probe's verdict with
the flag already set to true. -/
theorem session_invalidation_behavior :
    (∀ (a : AuthInput) (st : SessionState) (r : Except Unit Bool) (st' : SessionState),
      authenticate a st = (r, st') →
        st'.hasSession = true ∧ st'.closed = (st.hasSession && st.closed) ∧
        (st'.logged_in = true ∨ st'.logged_in = st.logged_in)) ∧
    (∀ (a : AuthInput) (st : SessionState), a.loginPageRaises = false →
      a.loginPageOk = false → authenticate a st = (.ok false, ensureSession st)) ∧
    (∀ st : SessionState, st.hasSession = false →
      ensureSession st = { hasSession := true, closed := false, logged_in := st.logged_in }) ∧
    (∀ st : SessionState, st.hasSession = true → st.closed = false →
      async_stop st = { hasSession := false, closed := true, logged_in := false } ∧
      sessionClosed (async_stop st) = true) := by
  refine ⟨authenticate_client_state, ?_, ?_, ?_⟩
  · intro a st h1 h2
    simp only [authenticate]
    rw [if_neg (by simp [h1]), if_pos (by simp [h2])]
  · intro st h1
    unfold ensureSession
    rw [if_neg (by simp [h1])]
  · intro st h1 h2
    have hstop : async_stop st = { hasSession := false, closed := true, logged_in := false } := by
      unfold async_stop
      rw [if_pos ⟨h1, by simp [h2]⟩]
    exact ⟨hstop, by rw [hstop]; rfl⟩

/-- Witness for the amended C7: a discovery-failure authentication on a
coordinator with no client (the first cycle) returns failure while
creating an open, not-logged-in client; and `async_stop` on an open
logged-in session closes the client and clears the flag. -/
theorem session_invalidation_behavior_witness :
    authenticate
        { loginPageRaises := false, loginPageOk := false, status := 0, location := "",
          body := "", redirectBody := none, probe := false }
        { hasSession := false, closed := false, logged_in := false }
      = (.ok false, { hasSession := true, closed := false, logged_in := false }) ∧
    async_stop { hasSession := true, closed := false, logged_in := true }
      = { hasSession := false, closed := true, logged_in := false } :=
  ⟨session_invalidation_behavior.2.1 _ _ rfl rfl,
   (session_invalidation_behavior.2.2.2 _ rfl rfl).1⟩

/-! ## Claim C8: short lines and non-numeric fields -/

/-- Projection used to compare parse outcomes in the C8 counterexample. -/
def getConsumption : Except Unit EDict → Option ℚ
  | .error _ => none
  | .ok d => dget d "daily_consumption"

theorem processLine_short (today : String) (d : EDict) (l : String)
    (h : (pySplit ',' l).length < 52) : processLine today d l = d := by
  unfold processLine
  split
  · rfl
  · unfold processParts
    rw [if_pos h]

/-- C8 amended: a data line with fewer than 52 fields is mapped to the
identity by the aggregation passes (so it contributes no values and never
aborts the parse of the other lines), and a non-numeric field parses to
0.0; however, a short line with more than 3 fields still appends its date
field to the fallback date list, so it can change which date the fallback
aggregates. -/
theorem short_line_skip_and_coercion :
    (∀ (today : String) (d : EDict) (parts : List String),
      parts.length < 52 → processParts today d parts = d) ∧
    (∀ (today : String) (d : EDict) (pre post : List String) (l : String),
      (pySplit ',' l).length < 52 →
        (pre ++ l :: post).foldl (processLine today) d
          = (pre ++ post).foldl (processLine today) d) ∧
    (∀ s : String, pyFloat? s = none → pyFloatD s = 0) ∧
    (∀ (x : String) (rest : List String) (l : String), ¬ (pyStrip l = "") →
      3 < (pySplit ',' l).length →
        recentDatesOf ((x :: rest) ++ [l])
          = recentDatesOf (x :: rest) ++ [(pySplit ',' l).getD 3 ""]) := by
  refine ⟨?_, ?_, ?_, ?_⟩
  · intro today d parts h
    unfold processParts
    rw [if_pos h]
  · intro today d pre post l h
    rw [List.foldl_append, List.foldl_append, List.foldl_cons,
      processLine_short today _ l h]
  · intro s h
    unfold pyFloatD
    rw [h]
    rfl
  · intro x rest l h1 h2
    simp [recentDatesOf, List.filterMap_append, h1, h2]

/-- Witness for the amended C8: a three-field line is skipped and a
non-numeric field is coerced to zero. -/
theorem short_line_skip_and_coercion_witness :
    processParts "t" [] ["a", "b", "c"] = [] ∧ pyFloatD "n/a" = 0 :=
  ⟨short_line_skip_and_coercion.1 "t" [] ["a", "b", "c"] (by decide),
   short_line_skip_and_coercion.2.2.1 "n/a" (by decide)⟩

section RatEvalE

attribute [local semireducible] Rat.add Rat.mul Rat.inv Rat.sub Rat.ofScientific

/-- A CSV whose only full-width row is dated 2/1/2024 (sum 5) followed by
a 4-field short line dated 3/1/2024. -/
def csvWithShortLineC8 : String :=
  "header\na,b,Consumption,2/1/2024,0,0,0,0,0,0,0,0,0,0,0,0,0,0,0,0,0,0,0,0,0,0,0,0,0,0,0,0,0,0,0,0,0,0,0,0,0,0,0,0,0,0,0,0,0,0,0,5\nx,y,Consumption,3/1/2024"

/-- The same CSV without the short line. -/
def csvWithoutShortLineC8 : String :=
  "header\na,b,Consumption,2/1/2024,0,0,0,0,0,0,0,0,0,0,0,0,0,0,0,0,0,0,0,0,0,0,0,0,0,0,0,0,0,0,0,0,0,0,0,0,0,0,0,0,0,0,0,0,0,0,0,5"

/-- C8 counterexample: the short line is skipped by both aggregation
passes, yet its presence changes the computed daily consumption (0 instead
of 5), because its date becomes the fallback's "most recent" date; so a
skipped line does contribute to the totals. -/
theorem short_line_changes_totals :
    (pySplit ',' "x,y,Consumption,3/1/2024").length < 52 ∧
    getConsumption (extract_data_from_csv csvWithShortLineC8 "9/9/2025" 0.25 0.25 none)
      = some 0 ∧
    getConsumption (extract_data_from_csv csvWithoutShortLineC8 "9/9/2025" 0.25 0.25 none)
      = some 5 :=
  ⟨by decide, by decide, by decide⟩

end RatEvalE

/-! ## Claim C9: credential exposure -/

/-- A concrete coordinator state with known credentials. -/
def aliceCoordC9 : CoordState :=
  { username := "alice@example.com", password := "hunter2", retry_count := 0,
    login_url := "https://secure.meridianenergy.co.nz/login",
    dashboard_url := "https://secure.meridianenergy.co.nz/",
    usage_url := "https://secure.meridianenergy.co.nz/",
    billing_url := "https://secure.meridianenergy.co.nz/",
    session := { hasSession := true, closed := false, logged_in := false } }

/-- C9 counterexample: the debug log of `_authenticate` contains the full
username, and the diagnostics snapshot carries the raw (unsanitized)
username. -/
theorem credentials_echoed_in_full :
    (get_diagnostics_data aliceCoordC9).username = "alice@example.com" ∧
    "Username: alice@example.com" ∈ authStartLogs "alice@example.com" "hunter2" ∧
    pyIn "alice@example.com" "Username: alice@example.com" = true :=
  ⟨rfl, by decide, by decide⟩

/-- C9 amended: the password never reaches the log output or the
diagnostics snapshot (both are independent of it), but the username is
echoed in full in the authentication debug log and returned raw in the
diagnostics snapshot alongside login state, retry count, resolved URLs and
the session-closed flag. -/
theorem password_never_echoed :
    (∀ u p p' : String, authStartLogs u p = authStartLogs u p') ∧
    (∀ (c : CoordState) (p' : String),
      get_diagnostics_data { c with password := p' } = get_diagnostics_data c) ∧
    (∀ c : CoordState, (get_diagnostics_data c).username = c.username) :=
  ⟨fun _ _ _ => rfl, fun _ _ => rfl, fun _ => rfl⟩

end MeridianSolar
